import Mathlib

/-!
Verification of the Mergington High School activities API (`src/app.py`).

The program keeps a single in-memory table `activities` mapping an activity
name to a record with `description`, `schedule`, `max_participants` and
`participants` (an ordered list of email strings).  We embed the table as an
association list in insertion order, the record as a structure, and each
HTTP handler as a pure function from the table (and its arguments) to an
`Except` of an `HTTPException` (status code plus detail string) or the new
table together with the JSON message.
-/

namespace Mergington

/-- An activity record, mirroring the dict values in `app.py`. -/
structure Activity where
  description : String
  schedule : String
  max_participants : Nat
  participants : List String
deriving Repr, DecidableEq

/-- The in-memory activity database: activity name to record, in insertion
order, with unique names (a Python dict). -/
abbrev Directory := List (String × Activity)

/-- Look up an activity by exact (case-sensitive) name, as `activities[activity_name]`. -/
def lookupActivity : Directory → String → Option Activity
  | [], _ => none
  | (k, v) :: rest, name => if k = name then some v else lookupActivity rest name

/-- Replace the record stored under `name`, reflecting the in-place mutation
of `activities[activity_name]` in the Python code. -/
def updateActivity : Directory → String → Activity → Directory
  | [], _, _ => []
  | (k, v) :: rest, name, a =>
      if k = name then (k, a) :: rest else (k, v) :: updateActivity rest name a

/-- `raise HTTPException(status_code=..., detail=...)`. -/
structure HTTPException where
  status_code : Nat
  detail : String
deriving Repr, DecidableEq

/-- The hardcoded seed table from `app.py`. -/
def initial_activities : Directory :=
  [ ("Chess Club",
      { description := "Learn strategies and compete in chess tournaments"
        schedule := "Fridays, 3:30 PM - 5:00 PM"
        max_participants := 12
        participants := ["michael@mergington.edu", "daniel@mergington.edu"] }),
    ("Programming Class",
      { description := "Learn programming fundamentals and build software projects"
        schedule := "Tuesdays and Thursdays, 3:30 PM - 4:30 PM"
        max_participants := 20
        participants := ["emma@mergington.edu", "sophia@mergington.edu"] }),
    ("Gym Class",
      { description := "Physical education and sports activities"
        schedule := "Mondays, Wednesdays, Fridays, 2:00 PM - 3:00 PM"
        max_participants := 30
        participants := ["john@mergington.edu", "olivia@mergington.edu"] }),
    ("Basketball Team",
      { description := "Join the competitive basketball team and compete in interscholastic games"
        schedule := "Mondays and Wednesdays, 4:00 PM - 5:30 PM"
        max_participants := 15
        participants := ["alex@mergington.edu"] }),
    ("Swimming Team",
      { description := "Competitive swimming with training and meets throughout the season"
        schedule := "Tuesdays and Thursdays, 4:00 PM - 5:30 PM"
        max_participants := 20
        participants := ["marcus@mergington.edu", "jasmine@mergington.edu"] }),
    ("Drama Club",
      { description := "Perform in school plays and develop acting and theatrical skills"
        schedule := "Thursdays, 3:30 PM - 5:00 PM"
        max_participants := 25
        participants := ["lucy@mergington.edu"] }),
    ("Art Club",
      { description := "Explore various art mediums and create collaborative art projects"
        schedule := "Wednesdays, 3:30 PM - 5:00 PM"
        max_participants := 18
        participants := ["nina@mergington.edu", "david@mergington.edu"] }),
    ("Debate Club",
      { description := "Develop public speaking and argumentation skills through competitive debate"
        schedule := "Mondays and Fridays, 3:30 PM - 5:00 PM"
        max_participants := 16
        participants := ["ryan@mergington.edu"] }),
    ("Science Club",
      { description := "Conduct experiments and explore scientific concepts through hands-on projects"
        schedule := "Tuesdays, 4:30 PM - 5:30 PM"
        max_participants := 20
        participants := ["priya@mergington.edu", "chris@mergington.edu"] }) ]

/-- `GET /activities`: `return activities` — the whole table, unchanged. -/
def get_activities (d : Directory) : Directory := d

/-- `POST /activities/\x7bactivity_name\x7d/signup` from `app.py`: 404 when the
activity name is unknown, 400 when the email is already a participant,
otherwise append the email and return the confirmation message. -/
def signup_for_activity (d : Directory) (activity_name email : String) :
    Except HTTPException (Directory × String) :=
  match lookupActivity d activity_name with
  | none => .error ⟨404, "Activity not found"⟩
  | some activity =>
      if email ∈ activity.participants then
        .error ⟨400, "Already signed up for this activity"⟩
      else
        .ok (updateActivity d activity_name
               { activity with participants := activity.participants ++ [email] },
             "Signed up " ++ email ++ " for " ++ activity_name)

/-- Modelled from the spec: the `DELETE /activities/\x7bactivity_name\x7d/unregister`
handler is absent from `src/app.py` (only the spec and the test suite describe
it).  Per the spec: 404 (`Activity not found`) when the activity name is
unknown, 400 with a detail mentioning "not signed up" when the email is not
currently a participant, otherwise the email is removed so that a subsequent
`list()` excludes it, and the message `Unregistered \x7bemail\x7d from
\x7bactivity_name\x7d` is returned. -/
def unregister_from_activity (d : Directory) (activity_name email : String) :
    Except HTTPException (Directory × String) :=
  match lookupActivity d activity_name with
  | none => .error ⟨404, "Activity not found"⟩
  | some activity =>
      if email ∈ activity.participants then
        .ok (updateActivity d activity_name
               { activity with participants := activity.participants.filter (· != email) },
             "Unregistered " ++ email ++ " from " ++ activity_name)
      else
        .error ⟨400, "Student is not signed up for this activity"⟩

/-- A request against the service as the spec describes it (list, signup,
unregister). -/
inductive Req
  | list
  | signup (activity_name email : String)
  | unregister (activity_name email : String)
deriving Repr, DecidableEq

/-- The effect of one spec-level request on the shared table: a handler that
raises leaves the table as it was; `list` never mutates. -/
def applyReq (d : Directory) : Req → Directory
  | .list => get_activities d
  | .signup a e =>
      match signup_for_activity d a e with
      | .ok (d', _) => d'
      | .error _ => d
  | .unregister a e =>
      match unregister_from_activity d a e with
      | .ok (d', _) => d'
      | .error _ => d

/-- A request against the API actually implemented in `src/app.py`: only
`GET /activities` and `POST .../signup` exist (no removal endpoint). -/
inductive ApiReq
  | list
  | signup (activity_name email : String)
deriving Repr, DecidableEq

/-- The effect of one implemented request on the shared table. -/
def applyApi (d : Directory) : ApiReq → Directory
  | .list => get_activities d
  | .signup a e =>
      match signup_for_activity d a e with
      | .ok (d', _) => d'
      | .error _ => d

/-- No activity's participant list holds a duplicate email. -/
def NoDupParticipants (d : Directory) : Prop :=
  ∀ p ∈ d, (Prod.snd p).participants.Nodup

instance (d : Directory) : Decidable (NoDupParticipants d) := by
  unfold NoDupParticipants; infer_instance

/-! Helper lemmas about `lookupActivity` and `updateActivity`. -/

theorem lookup_update_self (d : Directory) (name : String) (a x : Activity)
    (h : lookupActivity d name = some x) :
    lookupActivity (updateActivity d name a) name = some a := by
  induction d with
  | nil => simp [lookupActivity] at h
  | cons p rest ih =>
      obtain ⟨k, v⟩ := p
      by_cases hk : k = name
      · simp [updateActivity, lookupActivity, hk]
      · simp only [lookupActivity, updateActivity, if_neg hk] at h ⊢
        exact ih h

theorem lookup_update_ne (d : Directory) (name other : String) (a : Activity)
    (h : other ≠ name) :
    lookupActivity (updateActivity d name a) other = lookupActivity d other := by
  induction d with
  | nil => simp [updateActivity]
  | cons p rest ih =>
      obtain ⟨k, v⟩ := p
      by_cases hk : k = name
      · subst hk
        simp [updateActivity, lookupActivity, Ne.symm h]
      · simp only [updateActivity, if_neg hk, lookupActivity]
        by_cases hko : k = other
        · simp [hko]
        · simp [hko, ih]

theorem mem_update (d : Directory) (name : String) (a : Activity) (q : String × Activity)
    (h : q ∈ updateActivity d name a) : q ∈ d ∨ Prod.snd q = a := by
  induction d with
  | nil => simp [updateActivity] at h
  | cons p rest ih =>
      obtain ⟨k, v⟩ := p
      by_cases hk : k = name
      · simp only [updateActivity, if_pos hk] at h
        rcases List.mem_cons.mp h with h1 | h1
        · right; rw [h1]
        · left; exact List.mem_cons_of_mem _ h1
      · simp only [updateActivity, if_neg hk] at h
        rcases List.mem_cons.mp h with h1 | h1
        · left; exact h1 ▸ List.mem_cons_self _ _
        · rcases ih h1 with h2 | h2
          · left; exact List.mem_cons_of_mem _ h2
          · right; exact h2

theorem lookup_mem (d : Directory) (name : String) (a : Activity)
    (h : lookupActivity d name = some a) : (name, a) ∈ d := by
  induction d with
  | nil => simp [lookupActivity] at h
  | cons p rest ih =>
      obtain ⟨k, v⟩ := p
      by_cases hk : k = name
      · subst hk
        simp [lookupActivity] at h
        subst h
        exact List.mem_cons_self _ _
      · simp only [lookupActivity, if_neg hk] at h
        exact List.mem_cons_of_mem _ (ih h)

/-! Claim theorems. -/

/-- C2: `signup(A, e)` fails with status 404 and detail "Activity not found"
exactly when `A` is absent from the directory, fails with status 400 and
detail "Already signed up for this activity" exactly when `A` exists and `e`
is already among its participants, and succeeds in every other case. -/
theorem signup_error_taxonomy (d : Directory) (A e : String) :
    (signup_for_activity d A e = .error ⟨404, "Activity not found"⟩ ↔
      lookupActivity d A = none) ∧
    (signup_for_activity d A e = .error ⟨400, "Already signed up for this activity"⟩ ↔
      ∃ act, lookupActivity d A = some act ∧ e ∈ act.participants) ∧
    ((∃ r, signup_for_activity d A e = .ok r) ↔
      ∃ act, lookupActivity d A = some act ∧ e ∉ act.participants) := by
  cases h : lookupActivity d A with
  | none => simp [signup_for_activity, h]
  | some act =>
      by_cases he : e ∈ act.participants
      · simp [signup_for_activity, h, he]
      · simp [signup_for_activity, h, he]

/-- Witness for C2: all three branches of the signup taxonomy exercised on
the seed state. -/
theorem signup_error_taxonomy_witness :
    signup_for_activity initial_activities "Nonexistent Club" "x@y.edu" =
      .error ⟨404, "Activity not found"⟩ ∧
    signup_for_activity initial_activities "Chess Club" "michael@mergington.edu" =
      .error ⟨400, "Already signed up for this activity"⟩ ∧
    ∃ r, signup_for_activity initial_activities "Chess Club" "x@y.edu" = .ok r :=
  ⟨(signup_error_taxonomy initial_activities "Nonexistent Club" "x@y.edu").1.mpr rfl,
   (signup_error_taxonomy initial_activities "Chess Club"
      "michael@mergington.edu").2.1.mpr ⟨_, rfl, by decide⟩,
   (signup_error_taxonomy initial_activities "Chess Club" "x@y.edu").2.2.mpr
     ⟨_, rfl, by decide⟩⟩

/-- C5: `list()` returns the full directory — every activity present in the
state is returned with exactly its stored record — and has no side effect on
the state. -/
theorem get_activities_full (d : Directory) :
    get_activities d = d ∧
    ∀ A act, lookupActivity d A = some act →
      lookupActivity (get_activities d) A = some act := by
  exact ⟨rfl, fun A act h => h⟩

/-- Witness for C5 at the seed state and "Chess Club". -/
theorem get_activities_full_witness :
    get_activities initial_activities = initial_activities ∧
    lookupActivity (get_activities initial_activities) "Chess Club" =
      some { description := "Learn strategies and compete in chess tournaments"
             schedule := "Fridays, 3:30 PM - 5:00 PM"
             max_participants := 12
             participants := ["michael@mergington.edu", "daniel@mergington.edu"] } :=
  ⟨(get_activities_full initial_activities).1,
   (get_activities_full initial_activities).2 "Chess Club" _ rfl⟩

/-- C6: whenever signup or unregister raises an error, the shared table is
left completely unchanged — the append/removal happens only after every
validation has passed. -/
theorem error_leaves_state_unchanged (d : Directory) (A e : String) :
    (∀ err, signup_for_activity d A e = Except.error err →
      applyReq d (Req.signup A e) = d) ∧
    (∀ err, unregister_from_activity d A e = Except.error err →
      applyReq d (Req.unregister A e) = d) := by
  constructor
  · intro err h
    simp [applyReq, h]
  · intro err h
    simp [applyReq, h]

/-- Witness for C6: a duplicate signup and an unregistered removal on the
seed state both fail and leave the seed state intact. -/
theorem error_leaves_state_unchanged_witness :
    applyReq initial_activities (Req.signup "Chess Club" "michael@mergington.edu") =
      initial_activities ∧
    applyReq initial_activities (Req.unregister "Chess Club" "ghost@mergington.edu") =
      initial_activities :=
  ⟨(error_leaves_state_unchanged initial_activities "Chess Club"
      "michael@mergington.edu").1 ⟨400, "Already signed up for this activity"⟩ rfl,
   (error_leaves_state_unchanged initial_activities "Chess Club"
      "ghost@mergington.edu").2 ⟨400, "Student is not signed up for this activity"⟩ rfl⟩

/-- C3: when activity `A` exists and `e` is not yet a participant,
`signup(A, e)` succeeds, the stored participant list becomes the old list
with `e` appended at the end (existing order preserved), and the returned
message embeds `e` and `A`; no hypothesis on `max_participants` is needed,
so this holds even at or above capacity. -/
theorem signup_appends_email (d : Directory) (A e : String) (act : Activity)
    (hA : lookupActivity d A = some act) (he : e ∉ act.participants) :
    signup_for_activity d A e =
      .ok (updateActivity d A { act with participants := act.participants ++ [e] },
           "Signed up " ++ e ++ " for " ++ A) ∧
    lookupActivity
        (updateActivity d A { act with participants := act.participants ++ [e] }) A =
      some { act with participants := act.participants ++ [e] } :=
  ⟨by simp [signup_for_activity, hA, he], lookup_update_self d A _ act hA⟩

/-- A one-member club already at its `max_participants`, used to show that
signup has no capacity check. -/
def fullClub : Activity :=
  { description := "demo", schedule := "never", max_participants := 1,
    participants := ["a@x.edu"] }

/-- Witness for C3: signing up a second member of a club whose capacity is 1
still succeeds and appends at the end. -/
theorem signup_appends_email_witness :
    fullClub.max_participants ≤ fullClub.participants.length ∧
    signup_for_activity [("Tiny Club", fullClub)] "Tiny Club" "b@x.edu" =
      .ok (updateActivity [("Tiny Club", fullClub)] "Tiny Club"
             { fullClub with participants := fullClub.participants ++ ["b@x.edu"] },
           "Signed up " ++ "b@x.edu" ++ " for " ++ "Tiny Club") ∧
    lookupActivity
        (updateActivity [("Tiny Club", fullClub)] "Tiny Club"
          { fullClub with participants := fullClub.participants ++ ["b@x.edu"] })
        "Tiny Club" =
      some { fullClub with participants := fullClub.participants ++ ["b@x.edu"] } :=
  ⟨by decide,
   (signup_appends_email [("Tiny Club", fullClub)] "Tiny Club" "b@x.edu" fullClub
      rfl (by decide)).1,
   (signup_appends_email [("Tiny Club", fullClub)] "Tiny Club" "b@x.edu" fullClub
      rfl (by decide)).2⟩

/-- C1: `unregister(A, e)` fails with 404 when `A` is unknown, fails with 400
(not registered) when `e` is not currently a participant of `A`, and
otherwise succeeds returning a confirmation message, after which `list()`
no longer shows `e` among `A`'s participants. -/
theorem unregister_contract (d : Directory) (A e : String) :
    (lookupActivity d A = none →
      unregister_from_activity d A e = .error ⟨404, "Activity not found"⟩) ∧
    (∀ act, lookupActivity d A = some act → e ∉ act.participants →
      unregister_from_activity d A e =
        .error ⟨400, "Student is not signed up for this activity"⟩) ∧
    (∀ act, lookupActivity d A = some act → e ∈ act.participants →
      ∃ d' msg, unregister_from_activity d A e = .ok (d', msg) ∧
        ∀ act', lookupActivity (get_activities d') A = some act' →
          e ∉ act'.participants) := by
  refine ⟨fun h => by simp [unregister_from_activity, h], ?_, ?_⟩
  · intro act h hne
    simp [unregister_from_activity, h, hne]
  · intro act h hmem
    have heq : unregister_from_activity d A e =
        .ok (updateActivity d A
              { act with participants := act.participants.filter (· != e) },
             "Unregistered " ++ e ++ " from " ++ A) := by
      simp [unregister_from_activity, h, hmem]
    refine ⟨_, _, heq, ?_⟩
    intro act' h'
    have hl := lookup_update_self d A
      { act with participants := act.participants.filter (· != e) } act h
    simp only [get_activities] at h'
    rw [hl] at h'
    cases h'
    simp [List.mem_filter]

/-- Witness for C1: all three branches exercised on the seed state. -/
theorem unregister_contract_witness :
    unregister_from_activity initial_activities "Nonexistent Club" "x@y.edu" =
      .error ⟨404, "Activity not found"⟩ ∧
    unregister_from_activity initial_activities "Chess Club" "ghost@x.edu" =
      .error ⟨400, "Student is not signed up for this activity"⟩ ∧
    ∃ d' msg,
      unregister_from_activity initial_activities "Chess Club"
        "michael@mergington.edu" = .ok (d', msg) ∧
      ∀ act', lookupActivity (get_activities d') "Chess Club" = some act' →
        "michael@mergington.edu" ∉ act'.participants :=
  ⟨(unregister_contract initial_activities "Nonexistent Club" "x@y.edu").1 rfl,
   (unregister_contract initial_activities "Chess Club" "ghost@x.edu").2.1 _ rfl
     (by decide),
   (unregister_contract initial_activities "Chess Club"
      "michael@mergington.edu").2.2 _ rfl (by decide)⟩

/-- C4: after a successful `signup(A, e)`, repeating `signup(A, e)` yields
the Conflict error and leaves the state unchanged; `unregister(A, e)` then
succeeds, and after it `signup(A, e)` succeeds again (round-trip). -/
theorem signup_round_trip (d d₁ : Directory) (A e m : String)
    (h : signup_for_activity d A e = .ok (d₁, m)) :
    signup_for_activity d₁ A e =
      .error ⟨400, "Already signed up for this activity"⟩ ∧
    applyReq d₁ (Req.signup A e) = d₁ ∧
    ∃ d₂ m₂, unregister_from_activity d₁ A e = .ok (d₂, m₂) ∧
      ∃ d₃ m₃, signup_for_activity d₂ A e = .ok (d₃, m₃) := by
  rcases hl : lookupActivity d A with _ | act
  · simp [signup_for_activity, hl] at h
  · by_cases he : e ∈ act.participants
    · simp [signup_for_activity, hl, he] at h
    · simp only [signup_for_activity, hl, if_neg he] at h
      rw [Except.ok.injEq, Prod.mk.injEq] at h
      obtain ⟨hd, -⟩ := h
      have hl₁ : lookupActivity d₁ A =
          some { act with participants := act.participants ++ [e] } := by
        rw [← hd]
        exact lookup_update_self d A _ act hl
      have hmem₁ : e ∈ ({ act with participants := act.participants ++ [e] } :
          Activity).participants := by simp
      have hconf : signup_for_activity d₁ A e =
          .error ⟨400, "Already signed up for this activity"⟩ := by
        simp [signup_for_activity, hl₁, hmem₁]
      refine ⟨hconf, by simp [applyReq, hconf], ?_⟩
      have hunreg : unregister_from_activity d₁ A e =
          .ok (updateActivity d₁ A
                { act with participants := act.participants.filter (· != e) },
               "Unregistered " ++ e ++ " from " ++ A) := by
        simp [unregister_from_activity, hl₁, hmem₁]
      refine ⟨_, _, hunreg, ?_⟩
      have hl₂ : lookupActivity
          (updateActivity d₁ A
            { act with participants := act.participants.filter (· != e) }) A =
          some { act with participants := act.participants.filter (· != e) } :=
        lookup_update_self d₁ A _ _ hl₁
      have hnot : e ∉ act.participants.filter (· != e) := by
        simp [List.mem_filter]
      have hsign : signup_for_activity
          (updateActivity d₁ A
            { act with participants := act.participants.filter (· != e) })
          A e =
          .ok (updateActivity
                (updateActivity d₁ A
                  { act with participants := act.participants.filter (· != e) })
                A
                { act with participants :=
                    (act.participants.filter (· != e)) ++ [e] },
               "Signed up " ++ e ++ " for " ++ A) := by
        simp [signup_for_activity, hl₂, hnot]
      exact ⟨_, _, hsign⟩

/-- The seed state after one successful new signup to Chess Club. -/
def seed_after_new_signup : Directory :=
  applyReq initial_activities (Req.signup "Chess Club" "new@x.edu")

/-- Witness for C4: the round-trip at the seed state with a fresh email. -/
theorem signup_round_trip_witness :
    signup_for_activity seed_after_new_signup "Chess Club" "new@x.edu" =
      .error ⟨400, "Already signed up for this activity"⟩ ∧
    applyReq seed_after_new_signup (Req.signup "Chess Club" "new@x.edu") =
      seed_after_new_signup ∧
    ∃ d₂ m₂, unregister_from_activity seed_after_new_signup "Chess Club"
        "new@x.edu" = .ok (d₂, m₂) ∧
      ∃ d₃ m₃, signup_for_activity d₂ "Chess Club" "new@x.edu" = .ok (d₃, m₃) :=
  signup_round_trip initial_activities seed_after_new_signup "Chess Club"
    "new@x.edu" "Signed up new@x.edu for Chess Club" rfl

/-- C9: in the seed state, "Chess Club" exists with participants exactly
["michael@mergington.edu", "daniel@mergington.edu"]; signing up
"test@x.edu" succeeds with a message containing "Signed up", after which
Chess Club has 3 participants. -/
theorem seed_chess_signup_scenario :
    (∃ act, lookupActivity initial_activities "Chess Club" = some act ∧
      act.participants = ["michael@mergington.edu", "daniel@mergington.edu"]) ∧
    ∃ d' msg,
      signup_for_activity initial_activities "Chess Club" "test@x.edu" = .ok (d', msg) ∧
      (∃ t, msg = "Signed up " ++ t) ∧
      ∃ act', lookupActivity d' "Chess Club" = some act' ∧
        act'.participants.length = 3 := by
  refine ⟨⟨_, rfl, rfl⟩, _, _, rfl, ⟨"test@x.edu for Chess Club", by decide⟩, _, rfl, rfl⟩

/-- One spec-level request preserves duplicate-freeness of every
participant list. -/
theorem nodup_step (d : Directory) (r : Req) (h : NoDupParticipants d) :
    NoDupParticipants (applyReq d r) := by
  cases r with
  | list => exact h
  | signup a e =>
      rcases hl : lookupActivity d a with _ | act
      · simpa [applyReq, signup_for_activity, hl] using h
      · by_cases he : e ∈ act.participants
        · simpa [applyReq, signup_for_activity, hl, he] using h
        · have happ : applyReq d (.signup a e) =
              updateActivity d a
                { act with participants := act.participants ++ [e] } := by
            simp [applyReq, signup_for_activity, hl, he]
          rw [happ]
          intro q hq
          rcases mem_update d a _ q hq with hmem | heq
          · exact h q hmem
          · rw [heq]
            have hact : act.participants.Nodup := h (a, act) (lookup_mem d a act hl)
            exact hact.append (List.nodup_singleton e)
              (by intro x hx hxe; simp at hxe; subst hxe; exact he hx)
  | unregister a e =>
      rcases hl : lookupActivity d a with _ | act
      · simpa [applyReq, unregister_from_activity, hl] using h
      · by_cases he : e ∈ act.participants
        · have happ : applyReq d (.unregister a e) =
              updateActivity d a
                { act with participants := act.participants.filter (· != e) } := by
            simp [applyReq, unregister_from_activity, hl, he]
          rw [happ]
          intro q hq
          rcases mem_update d a _ q hq with hmem | heq
          · exact h q hmem
          · rw [heq]
            have hact : act.participants.Nodup := h (a, act) (lookup_mem d a act hl)
            exact hact.filter _
        · simpa [applyReq, unregister_from_activity, hl, he] using h

/-- Any sequence of spec-level requests preserves duplicate-freeness. -/
theorem nodup_run (rs : List Req) (d : Directory) (h : NoDupParticipants d) :
    NoDupParticipants (rs.foldl applyReq d) := by
  induction rs generalizing d with
  | nil => exact h
  | cons r rest ih => exact ih _ (nodup_step d r h)

/-- C7: in the seeded initial state and after every sequence of signup and
unregister requests, no activity's participant list contains a duplicate
email. -/
theorem no_duplicate_invariant (rs : List Req) :
    NoDupParticipants initial_activities ∧
    NoDupParticipants (rs.foldl applyReq initial_activities) :=
  ⟨by decide, nodup_run rs initial_activities (by decide)⟩

/-- Witness for C7: the invariant evaluated after a concrete signup followed
by an unregister. -/
theorem no_duplicate_invariant_witness :
    NoDupParticipants initial_activities ∧
    NoDupParticipants
      ([Req.signup "Chess Club" "w@x.edu",
        Req.unregister "Chess Club" "daniel@mergington.edu"].foldl applyReq
        initial_activities) :=
  no_duplicate_invariant [Req.signup "Chess Club" "w@x.edu",
    Req.unregister "Chess Club" "daniel@mergington.edu"]

/-- C8: membership of `e` in a distinct activity `B` never makes
`signup(A, e)` fail — after the signup `e` belongs to both `A` and `B`,
whose record is untouched — and the response of `signup(A, e)` depends only
on what is stored under `A`. -/
theorem no_cross_activity_exclusivity (d : Directory) (A B e : String)
    (actA actB : Activity) (hAB : B ≠ A)
    (hA : lookupActivity d A = some actA) (heA : e ∉ actA.participants)
    (hB : lookupActivity d B = some actB) (heB : e ∈ actB.participants) :
    (∃ d' m, signup_for_activity d A e = .ok (d', m) ∧
      (∃ actA', lookupActivity d' A = some actA' ∧ e ∈ actA'.participants) ∧
      lookupActivity d' B = some actB) ∧
    ∀ d₂, lookupActivity d₂ A = lookupActivity d A →
      (signup_for_activity d₂ A e).map Prod.snd =
        (signup_for_activity d A e).map Prod.snd := by
  constructor
  · have hsign : signup_for_activity d A e =
        .ok (updateActivity d A
              { actA with participants := actA.participants ++ [e] },
             "Signed up " ++ e ++ " for " ++ A) := by
      simp [signup_for_activity, hA, heA]
    refine ⟨_, _, hsign, ⟨_, lookup_update_self d A _ actA hA, by simp⟩, ?_⟩
    rw [lookup_update_ne d A B _ hAB]
    exact hB
  · intro d₂ h2
    simp [signup_for_activity, h2, hA, heA, Except.map]

/-- Witness for C8: in the seed state, "emma@mergington.edu" is in
Programming Class; she can still sign up for Chess Club and ends up in
both. -/
theorem no_cross_activity_exclusivity_witness :
    (∃ d' m, signup_for_activity initial_activities "Chess Club"
        "emma@mergington.edu" = .ok (d', m) ∧
      (∃ actA', lookupActivity d' "Chess Club" = some actA' ∧
        "emma@mergington.edu" ∈ actA'.participants) ∧
      lookupActivity d' "Programming Class" =
        some { description := "Learn programming fundamentals and build software projects"
               schedule := "Tuesdays and Thursdays, 3:30 PM - 4:30 PM"
               max_participants := 20
               participants := ["emma@mergington.edu", "sophia@mergington.edu"] }) ∧
    ∀ d₂, lookupActivity d₂ "Chess Club" =
        lookupActivity initial_activities "Chess Club" →
      (signup_for_activity d₂ "Chess Club" "emma@mergington.edu").map Prod.snd =
        (signup_for_activity initial_activities "Chess Club"
          "emma@mergington.edu").map Prod.snd :=
  no_cross_activity_exclusivity initial_activities "Chess Club"
    "Programming Class" "emma@mergington.edu" _ _ (by decide) rfl (by decide)
    rfl (by decide)

/-- One implemented request (list or signup only) can only extend a
participant list, never shrink it. -/
theorem api_step_extends (d : Directory) (r : ApiReq) (A : String) (act : Activity)
    (h : lookupActivity d A = some act) :
    ∃ act' ext, lookupActivity (applyApi d r) A = some act' ∧
      act'.participants = act.participants ++ ext := by
  cases r with
  | list => exact ⟨act, [], h, by simp⟩
  | signup B x =>
      rcases hB : lookupActivity d B with _ | actB
      · refine ⟨act, [], ?_, by simp⟩
        simpa [applyApi, signup_for_activity, hB] using h
      · by_cases hx : x ∈ actB.participants
        · refine ⟨act, [], ?_, by simp⟩
          simpa [applyApi, signup_for_activity, hB, hx] using h
        · have happ : applyApi d (.signup B x) =
              updateActivity d B
                { actB with participants := actB.participants ++ [x] } := by
            simp [applyApi, signup_for_activity, hB, hx]
          by_cases hBA : A = B
          · subst hBA
            rw [h] at hB
            injection hB with hact
            subst hact
            refine ⟨{ act with participants := act.participants ++ [x] }, [x], ?_, rfl⟩
            rw [happ]
            exact lookup_update_self d A _ act h
          · refine ⟨act, [], ?_, by simp⟩
            rw [happ, lookup_update_ne d B A _ hBA]
            exact h

/-- Any sequence of implemented requests only appends to a participant
list. -/
theorem api_run_extends (ops : List ApiReq) (d : Directory) (A : String)
    (act : Activity) (h : lookupActivity d A = some act) :
    ∃ act' ext, lookupActivity (ops.foldl applyApi d) A = some act' ∧
      act'.participants = act.participants ++ ext := by
  induction ops generalizing d act with
  | nil => exact ⟨act, [], h, by simp⟩
  | cons r rest ih =>
      obtain ⟨act₁, ext₁, h₁, hp₁⟩ := api_step_extends d r A act h
      obtain ⟨act₂, ext₂, h₂, hp₂⟩ := ih _ _ h₁
      exact ⟨act₂, ext₁ ++ ext₂, h₂, by rw [hp₂, hp₁, List.append_assoc]⟩

/-- C10: the implemented API has only `list` and `signup` (no removal
endpoint), so across every sequence of implemented requests an email once
present in an activity's participants stays present, and the participant
list length never decreases. -/
theorem api_never_removes (d : Directory) (ops : List ApiReq) (A : String)
    (act : Activity) (h : lookupActivity d A = some act) :
    ∃ act', lookupActivity (ops.foldl applyApi d) A = some act' ∧
      (∃ ext, act'.participants = act.participants ++ ext) ∧
      act.participants.length ≤ act'.participants.length ∧
      ∀ e ∈ act.participants, e ∈ act'.participants := by
  obtain ⟨act', ext, h', hp⟩ := api_run_extends ops d A act h
  refine ⟨act', h', ⟨ext, hp⟩, ?_, ?_⟩
  · rw [hp, List.length_append]
    exact Nat.le_add_right _ _
  · intro e he
    rw [hp]
    exact List.mem_append_left _ he

/-- Witness for C10: three implemented requests starting from the seed state
never remove the two seeded Chess Club members. -/
theorem api_never_removes_witness :
    ∃ act', lookupActivity
        (([ApiReq.signup "Chess Club" "n@x.edu", ApiReq.list,
           ApiReq.signup "Chess Club" "n@x.edu"].foldl applyApi
          initial_activities)) "Chess Club" = some act' ∧
      (∃ ext, act'.participants =
        ["michael@mergington.edu", "daniel@mergington.edu"] ++ ext) ∧
      (["michael@mergington.edu", "daniel@mergington.edu"] : List String).length ≤
        act'.participants.length ∧
      ∀ e ∈ (["michael@mergington.edu", "daniel@mergington.edu"] : List String),
        e ∈ act'.participants :=
  api_never_removes initial_activities
    [ApiReq.signup "Chess Club" "n@x.edu", ApiReq.list,
     ApiReq.signup "Chess Club" "n@x.edu"] "Chess Club"
    { description := "Learn strategies and compete in chess tournaments"
      schedule := "Fridays, 3:30 PM - 5:00 PM"
      max_participants := 12
      participants := ["michael@mergington.edu", "daniel@mergington.edu"] } rfl

end Mergington
